import Mathlib

/-! Verification of the device resolver and pair-compatibility logic of
`isim/device.py` (the `isim` simulator-control library).

The embedding models:
  * `Device` — the snapshot fields a `Device` object carries
    (`name`, `udid`, `state`, `availability`, `runtime_name`);
  * `Inventory` — the mapping from runtime identifier to ordered device
    list returned by `list_all()` (Python dicts preserve insertion order,
    so an association list is faithful);
  * `from_name` — `device.from_name(name, runtime)`, with exceptions made
    explicit as an `Except` error value (the Python code raises
    `MultipleMatchesException` with one of two message strings);
  * `from_identifier` — `device.from_identifier(identifier)`;
  * `pair` — `Device.pair(self, other_device)`, whose successful result
    `(watch, phone)` records the arguments passed, in that order, to the
    downstream `isim.pair_devices(watch, phone)` call.
-/

namespace Isim

/-- A device record as carried by `isim.device.Device`: the fields set in
`_update_info` plus the `runtime_name` key assigned at construction. -/
structure Device where
  name : String
  udid : String
  state : String
  availability : String
  runtime_name : String
deriving DecidableEq, Repr

/-- The inventory returned by `list_all()`: runtime identifier keyed,
ordered lists of devices, in dict insertion order. -/
abbrev Inventory := List (String × List Device)

/-- The exception classes of `isim/device.py`, with their message string.
`multipleMatches` is `MultipleMatchesException`, `deviceNotFound` is
`DeviceNotFoundError`, `invalidDevice` is `InvalidDeviceError`. -/
inductive SimError where
  | multipleMatches (msg : String)
  | deviceNotFound (msg : String)
  | invalidDevice (msg : String)
deriving DecidableEq, Repr

/-- The kind (Python class) of an exception, separate from its message. -/
inductive SimErrorKind where
  | multipleMatches
  | deviceNotFound
  | invalidDevice
deriving DecidableEq, Repr

/-- Project an error to its kind (its Python exception class): what a
caller can discriminate on without reading the message text. -/
def SimError.kind : SimError → SimErrorKind
  | .multipleMatches _ => .multipleMatches
  | .deviceNotFound _ => .deviceNotFound
  | .invalidDevice _ => .invalidDevice

/-- The message string of an exception. -/
def SimError.msg : SimError → String
  | .multipleMatches m => m
  | .deviceNotFound m => m
  | .invalidDevice m => m

/-- Whether `pat` starts `s` (character lists). -/
def charsPre : List Char → List Char → Bool
  | [], _ => true
  | _ :: _, [] => false
  | a :: as, b :: bs => a == b && charsPre as bs

/-- Whether `pat` occurs as a contiguous sublist of `s` (character lists). -/
def charsSub (pat : List Char) : List Char → Bool
  | [] => charsPre pat []
  | c :: rest => charsPre pat (c :: rest) || charsSub pat rest

/-- Python's substring test `pat in s` on strings. -/
def strContains (s pat : String) : Bool :=
  charsSub pat.data s.data

/-- The matching pass of `from_name`: collect every `(device, runtime_name)`
pair whose device name equals the requested name, in inventory iteration
order (runtime-major, then list order). Mirrors the loop at
`device.py:190-195`. -/
def matchingNameDevices (inv : Inventory) (nm : String) : List (Device × String) :=
  inv.flatMap (fun rd => (rd.2.filter (fun d => d.name == nm)).map (fun d => (d, rd.1)))

/-- Embedding of `device.from_name(name, runtime)` (`device.py:179-219`) over
an explicit inventory snapshot. `Except.ok none` is Python's `None` return,
`Except.error` a raised `MultipleMatchesException`. The optional runtime
argument is represented by its `.name`, the only field the code reads. -/
def from_name (inv : Inventory) (nm : String) (runtime : Option String) :
    Except SimError (Option Device) :=
  let matching := matchingNameDevices inv nm
  match matching with
  | [] => .ok none
  | [(d, _)] => .ok (some d)
  | _ :: _ :: _ =>
    match runtime with
    | none => .error (.multipleMatches "Multiple device matches, but no runtime supplied")
    | some rtName =>
      match matching.filter (fun p => p.2 == rtName) with
      | [] => .ok none
      | [(d, _)] => .ok (some d)
      | _ :: _ :: _ =>
        .error (.multipleMatches "Multiple device matches even with runtime supplied")

/-- The flattening order in which `from_identifier` scans devices:
runtime-major, then list order. -/
def allDevices (inv : Inventory) : List Device :=
  inv.flatMap Prod.snd

/-- Embedding of `device.from_identifier(identifier)` (`device.py:169-176`)
over an explicit inventory snapshot: first device with matching `udid`, else
a raised `DeviceNotFoundError`. -/
def from_identifier (inv : Inventory) (idf : String) : Except SimError Device :=
  match (allDevices inv).find? (fun d => d.udid == idf) with
  | some d => .ok d
  | none => .error (.deviceNotFound ("No device with ID: " ++ idf))

/-- Phone-capability as tested by `Device.pair`: `"iOS" in runtime_name`. -/
def phoneCapable (d : Device) : Bool :=
  strContains d.runtime_name "iOS"

/-- Watch-capability as tested by `Device.pair`: `"watchOS" in runtime_name`. -/
def watchCapable (d : Device) : Bool :=
  strContains d.runtime_name "watchOS"

/-- Embedding of `Device.pair(self, other_device)` (`device.py:130-150`): the four
sequential role assignments (phone checked for self then other, watch
checked for self then other; a later assignment overwrites an earlier
one), then the `None` guard. `Except.ok (watch, phone)` records the
arguments of the downstream `isim.pair_devices(watch, phone)` call in
their call order; `Except.error` is a raised `InvalidDeviceError`. -/
def pair (self other : Device) : Except SimError (Device × Device) :=
  let phone1 : Option Device := if phoneCapable self then some self else none
  let phone : Option Device := if phoneCapable other then some other else phone1
  let watch1 : Option Device := if watchCapable self then some self else none
  let watch : Option Device := if watchCapable other then some other else watch1
  match watch, phone with
  | some w, some p => .ok (w, p)
  | none, _ => .error (.invalidDevice "One device should be a watch and the other a phone")
  | _, none => .error (.invalidDevice "One device should be a watch and the other a phone")

/-! Concrete fixture devices and inventories used by witnesses and
counterexamples. -/

/-- A device whose runtime identifier contains both markers. -/
def dualDev : Device :=
  ⟨"Hybrid", "UD-DUAL", "Shutdown", "(available)", "iOS watchOS 5.0"⟩

/-- A device whose runtime identifier contains only the phone marker. -/
def phoneDev : Device :=
  ⟨"My Phone", "UD-PHONE", "Shutdown", "(available)", "iOS 12.1"⟩

/-- A device whose runtime identifier contains only the watch marker. -/
def watchDev : Device :=
  ⟨"My Watch", "UD-WATCH", "Shutdown", "(available)", "watchOS 5.0"⟩

/-- A device whose runtime identifier contains neither marker. -/
def plainDev : Device :=
  ⟨"Apple TV", "UD-TV", "Shutdown", "(available)", "tvOS 12.1"⟩

def devX1 : Device := ⟨"X", "U1", "Shutdown", "(available)", "R1"⟩

def devX2 : Device := ⟨"X", "U2", "Shutdown", "(available)", "R2"⟩

def devX3 : Device := ⟨"X", "U3", "Shutdown", "(available)", "R1"⟩

/-- Two devices named `X`, one in runtime `R1`, one in runtime `R2`. -/
def invTwo : Inventory := [("R1", [devX1]), ("R2", [devX2])]

/-- Two devices named `X`, both under the runtime key `R1`. -/
def invDupRt : Inventory := [("R1", [devX1, devX3])]

/-- Exactly one device named `X`, next to an unrelated device. -/
def invOne : Inventory := [("R1", [devX1, phoneDev])]

/-- Inventory with duplicate names across runtimes but distinct udids. -/
def invIds : Inventory := [("R1", [devX1, phoneDev]), ("R2", [devX2])]

example : strContains "iOS watchOS 5.0" "iOS" = true := rfl
example : strContains "iOS watchOS 5.0" "watchOS" = true := rfl
example : strContains "watchOS 5.0" "iOS" = false := rfl
example : strContains "tvOS 12.1" "iOS" = false := rfl

example : pair phoneDev watchDev = .ok (watchDev, phoneDev) := rfl
example : pair watchDev phoneDev = .ok (watchDev, phoneDev) := rfl
example : pair dualDev phoneDev = .ok (dualDev, phoneDev) := rfl
example : pair phoneDev dualDev = .ok (dualDev, dualDev) := rfl
example : pair dualDev plainDev = .ok (dualDev, dualDev) := rfl
example : pair plainDev dualDev = .ok (dualDev, dualDev) := rfl
example :
    pair phoneDev phoneDev
      = .error (.invalidDevice "One device should be a watch and the other a phone") := rfl

example :
    from_name invTwo "X" none
      = .error (.multipleMatches "Multiple device matches, but no runtime supplied") := rfl
example : from_name invTwo "X" (some "R1") = .ok (some devX1) := rfl
example : from_name invTwo "X" (some "R3") = .ok none := rfl
example :
    from_name invDupRt "X" (some "R1")
      = .error (.multipleMatches "Multiple device matches even with runtime supplied") := rfl
example : from_name invOne "X" (some "Zed") = .ok (some devX1) := rfl
example : from_name invOne "Y" (some "Zed") = .ok none := rfl

example : from_identifier invIds "U2" = .ok devX2 := rfl
example :
    from_identifier invIds "U9" = .error (.deviceNotFound "No device with ID: U9") := rfl

/-! Characterisation of the substring test, connecting `strContains` to the
mathematical statement "occurs contiguously inside". -/

theorem charsPre_iff (p s : List Char) :
    charsPre p s = true ↔ ∃ t, s = p ++ t := by
  induction p generalizing s with
  | nil => simp [charsPre]
  | cons a as ih =>
    cases s with
    | nil => simp [charsPre]
    | cons b bs =>
      simp only [charsPre, Bool.and_eq_true, beq_iff_eq, ih]
      constructor
      · rintro ⟨h1, t, h2⟩
        exact ⟨t, by rw [List.cons_append, h1, h2]⟩
      · rintro ⟨t, ht⟩
        rw [List.cons_append] at ht
        injection ht with h1 h2
        exact ⟨h1.symm, t, h2⟩

theorem charsSub_iff (p s : List Char) :
    charsSub p s = true ↔ ∃ u v, s = u ++ p ++ v := by
  induction s with
  | nil =>
    simp only [charsSub, charsPre_iff]
    constructor
    · rintro ⟨t, ht⟩
      exact ⟨[], t, by simpa using ht⟩
    · rintro ⟨u, v, huv⟩
      have h1 := List.append_eq_nil.mp huv.symm
      have h2 := List.append_eq_nil.mp h1.1
      exact ⟨v, by simp [h2.2, h1.2]⟩
  | cons c rest ih =>
    simp only [charsSub, Bool.or_eq_true, charsPre_iff, ih]
    constructor
    · rintro (⟨t, ht⟩ | ⟨u, v, huv⟩)
      · exact ⟨[], t, by simpa using ht⟩
      · exact ⟨c :: u, v, by simp [huv]⟩
    · rintro ⟨u, v, huv⟩
      cases u with
      | nil => exact Or.inl ⟨v, by simpa using huv⟩
      | cons x u2 =>
        refine Or.inr ⟨u2, v, ?_⟩
        rw [List.cons_append, List.cons_append] at huv
        injection huv with h1 h2

theorem strContains_iff (s pat : String) :
    strContains s pat = true ↔ ∃ u v, s.data = u ++ pat.data ++ v :=
  charsSub_iff pat.data s.data

/-! Claim theorems: pair-compatibility checker. -/

/-- C3 (counterexample): the claim "a record is never both phone-capable and
watch-capable" is false: the device `dualDev`, whose runtime identifier is
`"iOS watchOS 5.0"`, matches both markers at once. -/
theorem roles_not_exclusive_cex :
    ¬ (∀ d : Device, ¬ (phoneCapable d = true ∧ watchCapable d = true)) :=
  fun h => h dualDev ⟨rfl, rfl⟩

/-- C3 (amended): the pairing-role classification of a device record can make
it both phone-capable and watch-capable; it is both exactly when its runtime
identifier contains both `"iOS"` and `"watchOS"` as contiguous substrings, so
a record with at most one of the two markers is never both. -/
theorem roles_both_iff_both_markers (d : Device) :
    (phoneCapable d = true ∧ watchCapable d = true) ↔
      ((∃ u v, d.runtime_name.data = u ++ "iOS".data ++ v) ∧
       (∃ u v, d.runtime_name.data = u ++ "watchOS".data ++ v)) := by
  unfold phoneCapable watchCapable
  rw [strContains_iff, strContains_iff]

/-- Witness for C3's amended theorem, at the dual-marker device. -/
theorem roles_both_iff_both_markers_witness :
    (∃ u v, dualDev.runtime_name.data = u ++ "iOS".data ++ v) ∧
    (∃ u v, dualDev.runtime_name.data = u ++ "watchOS".data ++ v) :=
  (roles_both_iff_both_markers dualDev).mp ⟨rfl, rfl⟩

/-- C7: when one device's runtime identifier contains `"iOS"` and not
`"watchOS"` and the other's contains `"watchOS"` and not `"iOS"`, `pair`
succeeds in either argument order, assigning the phone role to the iOS
device `a` and the watch role to the watchOS device `b`; the successful
result `(watch, phone)` records the downstream `pair_devices(watch, phone)`
call, watch first, phone second. -/
theorem pair_phone_watch (a b : Device)
    (hpa : phoneCapable a = true) (hwa : watchCapable a = false)
    (hpb : phoneCapable b = false) (hwb : watchCapable b = true) :
    pair a b = Except.ok (b, a) ∧ pair b a = Except.ok (b, a) := by
  constructor <;> simp [pair, hpa, hwa, hpb, hwb]

/-- Witness for C7 at a concrete iOS device and watchOS device. -/
theorem pair_phone_watch_witness :
    pair phoneDev watchDev = Except.ok (watchDev, phoneDev) ∧
    pair watchDev phoneDev = Except.ok (watchDev, phoneDev) :=
  pair_phone_watch phoneDev watchDev rfl rfl rfl rfl

/-- C8: whenever, after both classification passes, a role is unassigned —
the phone role (neither runtime identifier contains `"iOS"`) or the watch
role (neither contains `"watchOS"`) — `pair` raises `InvalidDeviceError`
and never reaches the downstream `pair_devices` call (an `Except.ok`
result is exactly an invocation of that call). -/
theorem pair_missing_role (a b : Device)
    (h : (phoneCapable a = false ∧ phoneCapable b = false) ∨
         (watchCapable a = false ∧ watchCapable b = false)) :
    pair a b
      = Except.error (.invalidDevice "One device should be a watch and the other a phone") := by
  rcases h with ⟨h1, h2⟩ | ⟨h1, h2⟩
  · cases hwa : watchCapable a <;> cases hwb : watchCapable b <;>
      simp [pair, h1, h2, hwa, hwb]
  · cases hpa : phoneCapable a <;> cases hpb : phoneCapable b <;>
      simp [pair, h1, h2, hpa, hpb]

/-- Witness for C8: two pure-iOS devices cannot be paired. -/
theorem pair_missing_role_witness :
    pair phoneDev phoneDev
      = Except.error (.invalidDevice "One device should be a watch and the other a phone") :=
  pair_missing_role phoneDev phoneDev (Or.inr ⟨rfl, rfl⟩)

/-- C10: a device `a` whose runtime identifier contains both markers, paired
with a device `b` whose identifier contains neither, does not raise: in both
argument orders `a` is assigned both roles, `b` gets none, and the downstream
call receives `a` as both watch and phone. -/
theorem pair_dual_vs_unmarked (a b : Device)
    (hpa : phoneCapable a = true) (hwa : watchCapable a = true)
    (hpb : phoneCapable b = false) (hwb : watchCapable b = false) :
    pair a b = Except.ok (a, a) ∧ pair b a = Except.ok (a, a) := by
  constructor <;> simp [pair, hpa, hwa, hpb, hwb]

/-- Witness for C10 at a dual-marker device and a marker-less device. -/
theorem pair_dual_vs_unmarked_witness :
    pair dualDev plainDev = Except.ok (dualDev, dualDev) ∧
    pair plainDev dualDev = Except.ok (dualDev, dualDev) :=
  pair_dual_vs_unmarked dualDev plainDev rfl rfl rfl rfl

/-- C1 (counterexample): with the pure-iOS device as the receiver and the
dual-marker device as the argument, the downstream call is
`pair_devices(dualDev, dualDev)`: the phone component of the result is the
dual-marker device, not the pure-iOS device, so the claimed classification
does not hold "regardless of which device is the receiver". -/
theorem pair_dual_vs_phone_cex :
    phoneCapable dualDev = true ∧ watchCapable dualDev = true ∧
    phoneCapable phoneDev = true ∧ watchCapable phoneDev = false ∧
    pair phoneDev dualDev = Except.ok (dualDev, dualDev) ∧
    dualDev ≠ phoneDev :=
  ⟨rfl, rfl, rfl, rfl, rfl, by decide⟩

/-- C1 (amended): for a dual-marker device `a` (runtime identifier contains
both `"iOS"` and `"watchOS"`) and a pure-iOS device `b`, `pair` succeeds in
both orders and classifies `a` as the watch in both; but only with `a` as
receiver is `b` the phone — with `a` as argument, the later phone assignment
overwrites `b` and `a` becomes both watch and phone. -/
theorem pair_dual_vs_phone (a b : Device)
    (hpa : phoneCapable a = true) (hwa : watchCapable a = true)
    (hpb : phoneCapable b = true) (hwb : watchCapable b = false) :
    pair a b = Except.ok (a, b) ∧ pair b a = Except.ok (a, a) := by
  constructor <;> simp [pair, hpa, hwa, hpb, hwb]

/-- Witness for C1's amended theorem at the concrete dual and iOS devices. -/
theorem pair_dual_vs_phone_witness :
    pair dualDev phoneDev = Except.ok (dualDev, phoneDev) ∧
    pair phoneDev dualDev = Except.ok (dualDev, dualDev) :=
  pair_dual_vs_phone dualDev phoneDev rfl rfl rfl rfl

/-! Claim theorems: name resolution. -/

/-- The collect pass gathers exactly the inventory's devices carrying the
requested name, tagged with their runtime key. -/
theorem mem_matchingNameDevices {inv : Inventory} {nm : String}
    {d : Device} {rt : String} :
    (d, rt) ∈ matchingNameDevices inv nm ↔
      ∃ ds, (rt, ds) ∈ inv ∧ d ∈ ds ∧ d.name = nm := by
  simp only [matchingNameDevices, List.mem_flatMap, List.mem_map,
    List.mem_filter, Prod.mk.injEq]
  constructor
  · rintro ⟨⟨rt2, ds⟩, hmem, d2, ⟨hd2, hname⟩, hdd, hrt⟩
    subst hdd
    subst hrt
    exact ⟨ds, hmem, hd2, by simpa using hname⟩
  · rintro ⟨ds, hmem, hd, hname⟩
    exact ⟨(rt, ds), hmem, d, ⟨hd, by simpa using hname⟩, rfl, rfl⟩

/-- No device of the inventory carries the name exactly when the collect
pass comes back empty. -/
theorem matchingNameDevices_eq_nil {inv : Inventory} {nm : String} :
    matchingNameDevices inv nm = [] ↔
      ∀ d ∈ allDevices inv, d.name ≠ nm := by
  simp only [matchingNameDevices, allDevices, List.flatMap_eq_nil_iff,
    List.map_eq_nil_iff, List.filter_eq_nil_iff, List.mem_flatMap]
  constructor
  · rintro h d ⟨p, hp, hd⟩
    intro hname
    exact absurd (by simpa using hname) (h p hp d hd)
  · rintro h p hp d hd
    simpa using h d ⟨p, hp, hd⟩

/-- C6: when no device in the inventory has the requested name, `from_name`
returns `None` — never an error — whatever the optional runtime filter is. -/
theorem from_name_no_match (inv : Inventory) (nm : String)
    (h : ∀ d ∈ allDevices inv, d.name ≠ nm) :
    ∀ filt : Option String, from_name inv nm filt = Except.ok none := by
  intro filt
  simp [from_name, matchingNameDevices_eq_nil.mpr h]

/-- Witness for C6 on a concrete inventory with no device named `Nope`. -/
theorem from_name_no_match_witness :
    from_name invOne "Nope" none = Except.ok none ∧
    from_name invOne "Nope" (some "R1") = Except.ok none :=
  ⟨from_name_no_match invOne "Nope" (by decide) none,
   from_name_no_match invOne "Nope" (by decide) (some "R1")⟩

/-- C5: when the collect pass finds exactly one device `d` with the
requested name, `from_name` returns `d` for every value of the optional
runtime filter — including a filter naming a runtime that matches
nothing. -/
theorem from_name_unique_match (inv : Inventory) (nm : String)
    (d : Device) (rt : String)
    (hm : matchingNameDevices inv nm = [(d, rt)]) :
    ∀ filt : Option String, from_name inv nm filt = Except.ok (some d) := by
  intro filt
  simp [from_name, hm]

/-- Witness for C5: the single device named `X` is returned with no filter,
with its own runtime as filter, and with a filter matching nothing. -/
theorem from_name_unique_match_witness :
    from_name invOne "X" none = Except.ok (some devX1) ∧
    from_name invOne "X" (some "R1") = Except.ok (some devX1) ∧
    from_name invOne "X" (some "Zed") = Except.ok (some devX1) :=
  ⟨from_name_unique_match invOne "X" devX1 "R1" (by decide) none,
   from_name_unique_match invOne "X" devX1 "R1" (by decide) (some "R1"),
   from_name_unique_match invOne "X" devX1 "R1" (by decide) (some "Zed")⟩

/-- C4: with exactly two same-named devices, in distinct runtimes `r1` and
`r2`: no filter raises the no-filter `MultipleMatchesException`; filter `r1`
returns the `r1` device; a filter `r3` equal to neither runtime identifier
returns `None` without error — the filter comparison is exact equality of
runtime identifiers. -/
theorem from_name_two_runtimes (inv : Inventory) (nm : String)
    (d1 : Device) (r1 : String) (d2 : Device) (r2 : String)
    (hm : matchingNameDevices inv nm = [(d1, r1), (d2, r2)])
    (hr : r1 ≠ r2) :
    from_name inv nm none
        = Except.error (.multipleMatches "Multiple device matches, but no runtime supplied") ∧
    from_name inv nm (some r1) = Except.ok (some d1) ∧
    from_name inv nm (some r2) = Except.ok (some d2) ∧
    (∀ r3 : String, r3 ≠ r1 → r3 ≠ r2 →
      from_name inv nm (some r3) = Except.ok none) := by
  refine ⟨?_, ?_, ?_, ?_⟩
  · simp [from_name, hm]
  · have h1 : (r1 == r1) = true := beq_self_eq_true r1
    have h2 : (r2 == r1) = false := beq_eq_false_iff_ne.mpr (Ne.symm hr)
    simp [from_name, hm, h1, h2]
  · have h1 : (r1 == r2) = false := beq_eq_false_iff_ne.mpr hr
    have h2 : (r2 == r2) = true := beq_self_eq_true r2
    simp [from_name, hm, h1, h2]
  · intro r3 h31 h32
    have h1 : (r1 == r3) = false := beq_eq_false_iff_ne.mpr (Ne.symm h31)
    have h2 : (r2 == r3) = false := beq_eq_false_iff_ne.mpr (Ne.symm h32)
    simp [from_name, hm, h1, h2]

/-- Witness for C4 on the two-runtime inventory, with `R3` as the filter
matching neither runtime. -/
theorem from_name_two_runtimes_witness :
    from_name invTwo "X" none
        = Except.error (.multipleMatches "Multiple device matches, but no runtime supplied") ∧
    from_name invTwo "X" (some "R1") = Except.ok (some devX1) ∧
    from_name invTwo "X" (some "R2") = Except.ok (some devX2) ∧
    from_name invTwo "X" (some "R3") = Except.ok none :=
  have h := from_name_two_runtimes invTwo "X" devX1 "R1" devX2 "R2"
    (by decide) (by decide)
  ⟨h.1, h.2.1, h.2.2.1, h.2.2.2 "R3" (by decide) (by decide)⟩

/-- Any error out of `from_name` with no runtime supplied is the no-filter
`MultipleMatchesException`. -/
theorem from_name_error_of_none (inv : Inventory) (nm : String) (e : SimError)
    (h : from_name inv nm none = Except.error e) :
    e = .multipleMatches "Multiple device matches, but no runtime supplied" := by
  cases hM : matchingNameDevices inv nm with
  | nil => simp [from_name, hM] at h
  | cons p tail =>
    cases tail with
    | nil =>
      obtain ⟨d, rt⟩ := p
      simp [from_name, hM] at h
    | cons q tail2 =>
      simp [from_name, hM] at h
      exact h.symm

/-- Any error out of `from_name` with a runtime supplied is the
filter-insufficient `MultipleMatchesException`. -/
theorem from_name_error_of_some (inv : Inventory) (nm rt : String) (e : SimError)
    (h : from_name inv nm (some rt) = Except.error e) :
    e = .multipleMatches "Multiple device matches even with runtime supplied" := by
  cases hM : matchingNameDevices inv nm with
  | nil => simp [from_name, hM] at h
  | cons p tail =>
    cases tail with
    | nil =>
      obtain ⟨d, rt2⟩ := p
      simp [from_name, hM] at h
    | cons q tail2 =>
      cases hF : (matchingNameDevices inv nm).filter (fun x => x.2 == rt) with
      | nil =>
        rw [hM] at hF
        simp [from_name, hM, hF] at h
      | cons fp ftail =>
        cases ftail with
        | nil =>
          obtain ⟨d, rt2⟩ := fp
          rw [hM] at hF
          simp [from_name, hM, hF] at h
        | cons fq ftail2 =>
          rw [hM] at hF
          simp [from_name, hM, hF] at h
          exact h.symm

/-- C2 (counterexample): the two ambiguity failures are not distinguishable
by error kind. A no-filter ambiguity (two devices named `X` in two runtimes)
and a filter-insufficient ambiguity (two devices named `X` under the same
runtime key, filter supplied) both raise the `MultipleMatchesException`
class; only the message text differs. -/
theorem ambiguity_same_kind_cex :
    from_name invTwo "X" none
        = Except.error (.multipleMatches "Multiple device matches, but no runtime supplied") ∧
    from_name invDupRt "X" (some "R1")
        = Except.error (.multipleMatches "Multiple device matches even with runtime supplied") ∧
    SimError.kind (.multipleMatches "Multiple device matches, but no runtime supplied")
        = SimError.kind (.multipleMatches "Multiple device matches even with runtime supplied") :=
  ⟨rfl, rfl, rfl⟩

/-- C2 (amended): every error of the no-filter case (a) and every error of
the filtered case (b) carry the same error kind, `MultipleMatchesException`;
the two cases are distinguishable only by their distinct message texts. -/
theorem ambiguity_errors_same_kind (inv inv' : Inventory) (nm nm' rt : String)
    (e e' : SimError)
    (h : from_name inv nm none = Except.error e)
    (h' : from_name inv' nm' (some rt) = Except.error e') :
    e.kind = .multipleMatches ∧ e'.kind = .multipleMatches ∧
    e.kind = e'.kind ∧ e.msg ≠ e'.msg := by
  have he := from_name_error_of_none inv nm e h
  have he' := from_name_error_of_some inv' nm' rt e' h'
  subst he
  subst he'
  refine ⟨rfl, rfl, rfl, ?_⟩
  simp [SimError.msg]

/-- Witness for C2's amended theorem on the two concrete ambiguous
inventories. -/
theorem ambiguity_errors_same_kind_witness :
    SimError.kind (.multipleMatches "Multiple device matches, but no runtime supplied")
        = SimError.kind (.multipleMatches "Multiple device matches even with runtime supplied") ∧
    SimError.msg (.multipleMatches "Multiple device matches, but no runtime supplied")
        ≠ SimError.msg (.multipleMatches "Multiple device matches even with runtime supplied") :=
  have h := ambiguity_errors_same_kind invTwo invDupRt "X" "X" "R1"
    (.multipleMatches "Multiple device matches, but no runtime supplied")
    (.multipleMatches "Multiple device matches even with runtime supplied")
    rfl rfl
  ⟨h.2.2.1, h.2.2.2⟩

/-- C9: `from_identifier` raises `DeviceNotFoundError` exactly when no
device in the inventory carries the requested `udid`; any successful return
is a device of the inventory whose `udid` equals the request — duplicate
names elsewhere are irrelevant since only `udid` is compared. -/
theorem from_identifier_spec (inv : Inventory) (idf : String) :
    (from_identifier inv idf
        = Except.error (.deviceNotFound ("No device with ID: " ++ idf))
      ↔ ∀ d ∈ allDevices inv, d.udid ≠ idf) ∧
    (∀ d : Device, from_identifier inv idf = Except.ok d →
      d ∈ allDevices inv ∧ d.udid = idf) := by
  cases hF : (allDevices inv).find? (fun d => d.udid == idf) with
  | none =>
    refine ⟨⟨fun _ d hd => ?_, fun _ => by simp [from_identifier, hF]⟩, ?_⟩
    · simpa using List.find?_eq_none.mp hF d hd
    · intro d hd
      simp [from_identifier, hF] at hd
  | some d0 =>
    refine ⟨⟨fun h => ?_, fun hall => ?_⟩, ?_⟩
    · simp [from_identifier, hF] at h
    · exact absurd (by simpa using List.find?_some hF)
        (hall d0 (List.mem_of_find?_eq_some hF))
    · intro d hd
      simp [from_identifier, hF] at hd
      subst hd
      exact ⟨List.mem_of_find?_eq_some hF, by simpa using List.find?_some hF⟩

/-- Witness for C9: a missing id raises, a present id is returned with a
matching `udid`, on an inventory with duplicate names. -/
theorem from_identifier_spec_witness :
    from_identifier invIds "U9"
        = Except.error (.deviceNotFound ("No device with ID: " ++ "U9")) ∧
    devX2 ∈ allDevices invIds ∧ devX2.udid = "U2" :=
  ⟨(from_identifier_spec invIds "U9").1.mpr (by decide),
   (from_identifier_spec invIds "U2").2 devX2 rfl⟩

end Isim
